import Mathlib

/-!
Verification of the label commands of the harbor-go-client repository
(src/api/labels.go), a CLI client for a container-registry management API.

The Go file is shallowly embedded below.  Side effects are made explicit:

* printed lines and dispatched HTTP requests are collected in a
  `CommandResult` trace;
* `utils.CookieLoad` (session-file read, outside src/) is a parameter of
  type `Except String Cookie`, the two outcomes the Go code distinguishes;
* `utils.URLGen` (outside src/) is a parameter `urlGen : String → String`;
* `time.Now().Format ("2006-01-02T15:04:05Z")` is a parameter `now : String`;
* Go package-level mutable structs (`labelslist`, `labelcreate`, ...) are
  passed explicitly as values.
-/

namespace Harbor

/-- Go `strconv.Itoa`: decimal rendering of a (signed) integer. -/
def strconvItoa (i : Int) : String := toString i

/-- The session cookie record loaded from the local `.cookie.yaml` file. -/
structure Cookie where
  BeegosessionID : String
deriving Repr, DecidableEq

/-- One dispatched HTTP request: verb, target URL, headers set, body sent. -/
structure HTTPRequest where
  verb : String
  url : String
  headers : List (String × String)
  body : Option String
deriving Repr, DecidableEq

/-- Observable trace of one command run: lines printed, requests dispatched. -/
structure CommandResult where
  printed : List String
  requests : List HTTPRequest
deriving Repr, DecidableEq

/-- Flag struct of `labels_list` (src/api/labels.go lines 35-41). -/
structure labelsList where
  Name : String
  Scope : String
  ProjectID : Int
  Page : Int
  PageSize : Int
deriving Repr, DecidableEq

/-- The query-string concatenation of `GetLabels` (src/api/labels.go 65-69). -/
def getLabelsTargetURL (baseURL : String) (x : labelsList) : String :=
  baseURL ++ "?scope=" ++ x.Scope ++
    "&name=" ++ x.Name ++
    "&project_id=" ++ strconvItoa x.ProjectID ++
    "&page=" ++ strconvItoa x.Page ++
    "&page_size=" ++ strconvItoa x.PageSize

/-- The fixed Cookie header value built by every command (e.g. line 81). -/
def cookieHeaderValue (c : Cookie) : String :=
  "harbor-lang=zh-cn; beegosessionID=" ++ c.BeegosessionID

/-- `GetLabels` (src/api/labels.go 64-83). -/
def GetLabels (baseURL : String) (x : labelsList)
    (cookieLoad : Except String Cookie) : CommandResult :=
  let targetURL := getLabelsTargetURL baseURL x
  match cookieLoad with
  | .error err =>
      { printed := ["==> GET " ++ targetURL, "Error: " ++ err], requests := [] }
  | .ok c =>
      { printed := ["==> GET " ++ targetURL],
        requests := [{ verb := "GET", url := targetURL,
                       headers := [("Cookie", cookieHeaderValue c)],
                       body := none }] }

/-- Lower-case hex digit, as used by Go JSON control-character escapes. -/
def hexDigit (n : Nat) : Char :=
  if n < 10 then Char.ofNat (48 + n) else Char.ofNat (87 + n)

/-- Escaping of one character by Go `encoding/json` (HTML-escaping on, the
`json.Marshal` default): `"` and `\` get a backslash, `<`, `>`, `&` and the
line separators U+2028/U+2029 become `\uXXXX`, control characters become
`\n`, `\r`, `\t` or `\u00XX`; all other characters pass through verbatim. -/
def goJSONEscapeChar (c : Char) : String :=
  if c = '\"' then "\\\""
  else if c = '\\' then "\\\\"
  else if c = '\n' then "\\n"
  else if c = '\r' then "\\r"
  else if c = '\t' then "\\t"
  else if c = '<' then "\\u003c"
  else if c = '>' then "\\u003e"
  else if c = '&' then "\\u0026"
  else if c.toNat < 0x20 then
    "\\u00" ++ String.mk [hexDigit (c.toNat / 16), hexDigit (c.toNat % 16)]
  else if c = '\u2028' then "\\u2028"
  else if c = '\u2029' then "\\u2029"
  else String.mk [c]

/-- Go `encoding/json` rendering of a string value. -/
def goEncodeString (s : String) : String :=
  "\"" ++ String.join (s.data.map goJSONEscapeChar) ++ "\""

/-- Go `encoding/json` rendering of a bool value. -/
def goEncodeBool (b : Bool) : String := if b then "true" else "false"

/-- Flag struct of `label_create` (src/api/labels.go 85-95); json tags
`id, name, description, color, scope, project_id, creation_time,
update_time, deleted` in declaration order. -/
structure labelCreate where
  ID : Int
  Name : String
  Description : String
  Color : String
  Scope : String
  ProjectID : Int
  CreationTime : String
  UpdateTime : String
  Deleted : Bool
deriving Repr, DecidableEq

/-- `json.Marshal(&labelcreate)`: Go emits the fields in struct order with
their json tag names (none has `omitempty`, so all nine appear). -/
def marshalLabelCreate (x : labelCreate) : String :=
  "\x7b\"id\":" ++ strconvItoa x.ID ++
    ",\"name\":" ++ goEncodeString x.Name ++
    ",\"description\":" ++ goEncodeString x.Description ++
    ",\"color\":" ++ goEncodeString x.Color ++
    ",\"scope\":" ++ goEncodeString x.Scope ++
    ",\"project_id\":" ++ strconvItoa x.ProjectID ++
    ",\"creation_time\":" ++ goEncodeString x.CreationTime ++
    ",\"update_time\":" ++ goEncodeString x.UpdateTime ++
    ",\"deleted\":" ++ goEncodeBool x.Deleted ++ "\x7d"

/-- The time-defaulting step of `PostLabelCreate` (src/api/labels.go
131-135): if either time field is empty, both are overwritten with the
same current-time string. -/
def defaultTimes (now : String) (x : labelCreate) : labelCreate :=
  if x.CreationTime = "" || x.UpdateTime = "" then
    { x with CreationTime := now, UpdateTime := now }
  else x

/-- `PostLabelCreate` (src/api/labels.go 130-159).  `now` stands for
`time.Now().Format("2006-01-02T15:04:05Z")`.  `json.Marshal` cannot fail on
this struct (plain strings/ints/bools), so the marshal-error branch (148-151)
is dead and the marshal is total here. -/
def PostLabelCreate (baseURL now : String) (x0 : labelCreate)
    (cookieLoad : Except String Cookie) : CommandResult :=
  let x := defaultTimes now x0
  let targetURL := baseURL
  match cookieLoad with
  | .error err =>
      { printed := ["==> POST " ++ targetURL, "Error: " ++ err], requests := [] }
  | .ok c =>
      let t := marshalLabelCreate x
      { printed := ["==> POST " ++ targetURL, "==> label add: " ++ t],
        requests := [{ verb := "POST", url := targetURL,
                       headers := [("Cookie", cookieHeaderValue c)],
                       body := some t }] }

/-- Flag struct of `label_del_by_id` (src/api/labels.go 161-163). -/
structure labelDel where
  ID : Int
deriving Repr, DecidableEq

/-- `DeleteLabel` (src/api/labels.go 182-197). -/
def DeleteLabel (baseURL : String) (x : labelDel)
    (cookieLoad : Except String Cookie) : CommandResult :=
  let targetURL := baseURL ++ "/" ++ strconvItoa x.ID
  match cookieLoad with
  | .error err =>
      { printed := ["==> DELETE " ++ targetURL, "Error: " ++ err], requests := [] }
  | .ok c =>
      { printed := ["==> DELETE " ++ targetURL],
        requests := [{ verb := "DELETE", url := targetURL,
                       headers := [("Cookie", cookieHeaderValue c)],
                       body := none }] }

/-- Flag struct of `label_get_by_id` (src/api/labels.go 199-201). -/
structure labelGet where
  ID : Int
deriving Repr, DecidableEq

/-- `GetLabel` (src/api/labels.go 220-235). -/
def GetLabel (baseURL : String) (x : labelGet)
    (cookieLoad : Except String Cookie) : CommandResult :=
  let targetURL := baseURL ++ "/" ++ strconvItoa x.ID
  match cookieLoad with
  | .error err =>
      { printed := ["==> GET " ++ targetURL, "Error: " ++ err], requests := [] }
  | .ok c =>
      { printed := ["==> GET " ++ targetURL],
        requests := [{ verb := "GET", url := targetURL,
                       headers := [("Cookie", cookieHeaderValue c)],
                       body := none }] }

/-- Flag struct of `label_update` (src/api/labels.go 237-247).  The
`CreationTime`/`UpdateTime` fields are commented out in the source, so the
struct has only seven fields. -/
structure labelUpdate where
  ID : Int
  Name : String
  Description : String
  Color : String
  Scope : String
  ProjectID : Int
  Deleted : Bool
deriving Repr, DecidableEq

/-- `json.Marshal(&labelupdate)`: seven fields, in struct order; no
`creation_time` or `update_time` key exists on this struct. -/
def marshalLabelUpdate (x : labelUpdate) : String :=
  "\x7b\"id\":" ++ strconvItoa x.ID ++
    ",\"name\":" ++ goEncodeString x.Name ++
    ",\"description\":" ++ goEncodeString x.Description ++
    ",\"color\":" ++ goEncodeString x.Color ++
    ",\"scope\":" ++ goEncodeString x.Scope ++
    ",\"project_id\":" ++ strconvItoa x.ProjectID ++
    ",\"deleted\":" ++ goEncodeBool x.Deleted ++ "\x7d"

/-- `PutLabelUpdate` (src/api/labels.go 282-315).  The time-defaulting block
is commented out in the source (285-290), so no `now` parameter is taken. -/
def PutLabelUpdate (baseURL : String) (x : labelUpdate)
    (cookieLoad : Except String Cookie) : CommandResult :=
  let targetURL := baseURL ++ "/" ++ strconvItoa x.ID
  match cookieLoad with
  | .error err =>
      { printed := ["==> PUT " ++ targetURL, "Error: " ++ err], requests := [] }
  | .ok c =>
      let t := marshalLabelUpdate x
      { printed := ["==> PUT " ++ targetURL, "==> label add: " ++ t],
        requests := [{ verb := "PUT", url := targetURL,
                       headers := [("Cookie", cookieHeaderValue c),
                                   ("Content-Type", "application/json")],
                       body := some t }] }

/-- `(*labelsList).Execute` (src/api/labels.go 45-48): runs `GetLabels` and
returns `nil`.  The returned Go `error` is the second component. -/
def labelsList.Execute (urlGen : String → String) (x : labelsList)
    (cookieLoad : Except String Cookie) (args : List String) :
    CommandResult × Option String :=
  (GetLabels (urlGen "/api/labels") x cookieLoad, none)

/-- `(*labelCreate).Execute` (src/api/labels.go 99-102). -/
def labelCreate.Execute (urlGen : String → String) (now : String)
    (x : labelCreate) (cookieLoad : Except String Cookie) (args : List String) :
    CommandResult × Option String :=
  (PostLabelCreate (urlGen "/api/labels") now x cookieLoad, none)

/-- `(*labelDel).Execute` (src/api/labels.go 167-170). -/
def labelDel.Execute (urlGen : String → String) (x : labelDel)
    (cookieLoad : Except String Cookie) (args : List String) :
    CommandResult × Option String :=
  (DeleteLabel (urlGen "/api/labels") x cookieLoad, none)

/-- `(*labelGet).Execute` (src/api/labels.go 205-208). -/
def labelGet.Execute (urlGen : String → String) (x : labelGet)
    (cookieLoad : Except String Cookie) (args : List String) :
    CommandResult × Option String :=
  (GetLabel (urlGen "/api/labels") x cookieLoad, none)

/-- `(*labelUpdate).Execute` (src/api/labels.go 251-254). -/
def labelUpdate.Execute (urlGen : String → String) (x : labelUpdate)
    (cookieLoad : Except String Cookie) (args : List String) :
    CommandResult × Option String :=
  (PutLabelUpdate (urlGen "/api/labels") x cookieLoad, none)

/-! ### Spec-side renderings, for refinement statements

These two definitions follow the wording of the spec (documented URL template and
documented JSON field set), to be compared against the embedded code. -/

/-- Spec-side query string: `?k1=v1&k2=v2&...` for the given key/value list. -/
def renderQueryString (ps : List (String × String)) : String :=
  "?" ++ String.intercalate "&" (ps.map fun p => p.1 ++ "=" ++ p.2)

/-- Spec-side JSON object: the given fields, each as `"key":value`, comma
separated between braces, in the given order. -/
def renderJSONObject (fields : List (String × String)) : String :=
  "\x7b" ++ String.intercalate "," (fields.map fun f => "\"" ++ f.1 ++ "\":" ++ f.2)
    ++ "\x7d"

/-- The documented field set of a create body, with each value rendered as Go
does: integers decimal, strings JSON-escaped and quoted, bools `true/false`. -/
def labelCreateFields (x : labelCreate) : List (String × String) :=
  [("id", strconvItoa x.ID),
   ("name", goEncodeString x.Name),
   ("description", goEncodeString x.Description),
   ("color", goEncodeString x.Color),
   ("scope", goEncodeString x.Scope),
   ("project_id", strconvItoa x.ProjectID),
   ("creation_time", goEncodeString x.CreationTime),
   ("update_time", goEncodeString x.UpdateTime),
   ("deleted", goEncodeBool x.Deleted)]

/-- The field set an update body actually carries (see `labelUpdate`: the two
time fields are commented out in the source struct). -/
def labelUpdateFields (x : labelUpdate) : List (String × String) :=
  [("id", strconvItoa x.ID),
   ("name", goEncodeString x.Name),
   ("description", goEncodeString x.Description),
   ("color", goEncodeString x.Color),
   ("scope", goEncodeString x.Scope),
   ("project_id", strconvItoa x.ProjectID),
   ("deleted", goEncodeBool x.Deleted)]

/-! ### Required-flag model

The `required:"yes"` struct tags live in src/api/labels.go; their enforcement
lives in the flag-parsing library behind `utils.Parser`, outside src/. -/

/-- Long names of flags tagged `required:"yes"` on `labelsList` (line 37). -/
def labelsListRequiredFlags : List String := ["scope"]

/-- Long names of flags tagged `required:"yes"` on `labelCreate` (87-88). -/
def labelCreateRequiredFlags : List String := ["name", "description"]

/-- Long names of flags tagged `required:"yes"` on `labelDel` (line 162). -/
def labelDelRequiredFlags : List String := ["id"]

/-- Long names of flags tagged `required:"yes"` on `labelGet` (line 200). -/
def labelGetRequiredFlags : List String := ["id"]

/-- Long names of flags tagged `required:"yes"` on `labelUpdate` (238-240). -/
def labelUpdateRequiredFlags : List String := ["id", "name", "description"]

/-- Modelled from the spec: the CLI parsing step (`utils.Parser`, the go-flags
wrapper, is not under src/) checks that every flag declared `required:"yes"`
was provided; a missing one is a usage error reported before the
`Execute` method of the handler runs, so the handler trace `run` is never produced and no request
is dispatched. -/
def parseAndRun (required provided : List String) (run : CommandResult) :
    CommandResult :=
  if required.all (fun f => provided.contains f) then run
  else { printed := ["usage error: missing required flag"], requests := [] }

/-- A required flag that was not provided makes `parseAndRun` refuse. -/
theorem parseAndRun_missing (f : String) {required provided : List String}
    (hf : f ∈ required) (hnp : f ∉ provided) (run : CommandResult) :
    parseAndRun required provided run
      = { printed := ["usage error: missing required flag"], requests := [] } := by
  unfold parseAndRun
  rw [if_neg]
  intro hall
  rw [List.all_eq_true] at hall
  exact hnp (by simpa using hall f hf)

/-! ### Claims -/

/-- C1: for every flag combination, `GetLabels` builds the target URL as the
base URL followed by the query string with exactly the keys
`scope, name, project_id, page, page_size`, in that order, values rendered
verbatim (integers decimal); the dispatched request uses exactly that URL. -/
theorem claim_C1 (baseURL : String) (x : labelsList) (c : Cookie) :
    getLabelsTargetURL baseURL x
      = baseURL ++ renderQueryString
          [("scope", x.Scope), ("name", x.Name),
           ("project_id", strconvItoa x.ProjectID),
           ("page", strconvItoa x.Page),
           ("page_size", strconvItoa x.PageSize)] ∧
    (GetLabels baseURL x (.ok c)).requests.map (fun r => r.url)
      = [baseURL ++ renderQueryString
          [("scope", x.Scope), ("name", x.Name),
           ("project_id", strconvItoa x.ProjectID),
           ("page", strconvItoa x.Page),
           ("page_size", strconvItoa x.PageSize)]] := by
  have h : getLabelsTargetURL baseURL x
      = baseURL ++ renderQueryString
          [("scope", x.Scope), ("name", x.Name),
           ("project_id", strconvItoa x.ProjectID),
           ("page", strconvItoa x.Page),
           ("page_size", strconvItoa x.PageSize)] := by
    apply String.ext
    simp [getLabelsTargetURL, renderQueryString, String.intercalate,
      String.intercalate.go, String.data_append]
  exact ⟨h, by simp [GetLabels, h]⟩

/-- C4: delete-by-id and get-by-id build their target URL as the base URL plus
`/` plus the decimal rendering of the id (`strconvItoa`, which on naturals is
the usual decimal numeral). -/
theorem claim_C4 (baseURL : String) (i : Int) (c : Cookie) :
    (DeleteLabel baseURL ⟨i⟩ (.ok c)).requests.map (fun r => r.url)
      = [baseURL ++ "/" ++ strconvItoa i] ∧
    (GetLabel baseURL ⟨i⟩ (.ok c)).requests.map (fun r => r.url)
      = [baseURL ++ "/" ++ strconvItoa i] ∧
    (∀ n : Nat, strconvItoa (Int.ofNat n) = Nat.repr n) := by
  refine ⟨by simp [DeleteLabel], by simp [GetLabel], fun n => rfl⟩

/-- C10: the list operation applies no URL encoding or validation to the
`name` and `scope` values: for every pair of strings, both appear verbatim
(character for character) inside the constructed target URL. -/
theorem claim_C10 (baseURL : String) (x : labelsList) :
    x.Scope.data <:+: (getLabelsTargetURL baseURL x).data ∧
    x.Name.data <:+: (getLabelsTargetURL baseURL x).data := by
  constructor
  · refine ⟨(baseURL ++ "?scope=").data,
      ("&name=" ++ x.Name ++ "&project_id=" ++ strconvItoa x.ProjectID
        ++ "&page=" ++ strconvItoa x.Page ++ "&page_size="
        ++ strconvItoa x.PageSize).data, ?_⟩
    simp [getLabelsTargetURL, String.data_append]
  · refine ⟨(baseURL ++ "?scope=" ++ x.Scope ++ "&name=").data,
      ("&project_id=" ++ strconvItoa x.ProjectID
        ++ "&page=" ++ strconvItoa x.Page ++ "&page_size="
        ++ strconvItoa x.PageSize).data, ?_⟩
    simp [getLabelsTargetURL, String.data_append]

set_option maxRecDepth 8192 in
/-- C2 as stated is false for update: at this concrete update invocation the
dispatched body is the seven-field object and carries no `creation_time`
key at all (and hence no time default), though the claim promises the full
documented field set for every update invocation. -/
theorem claim_C2_counterexample :
    ((PutLabelUpdate "https://localhost/api/labels"
        ⟨100, "n1", "d1", "#000000", "g", 0, false⟩
        (.ok ⟨"tok"⟩)).requests.map (fun r => r.body))
      = [some "\x7b\"id\":100,\"name\":\"n1\",\"description\":\"d1\",\"color\":\"#000000\",\"scope\":\"g\",\"project_id\":0,\"deleted\":false\x7d"] ∧
    ¬ ("creation_time".data
        <:+: "\x7b\"id\":100,\"name\":\"n1\",\"description\":\"d1\",\"color\":\"#000000\",\"scope\":\"g\",\"project_id\":0,\"deleted\":false\x7d".data) := by
  constructor
  · decide
  · decide

/-- C2 amended: the create body serializes exactly the nine documented fields
(id, name, description, color, scope, project_id, creation_time, update_time,
deleted) in that order, after the empty-time defaulting step; the update body
serializes exactly the seven fields id, name, description, color, scope,
project_id, deleted — creation_time and update_time are absent from update
bodies and no time defaulting is applied there. -/
theorem claim_C2 (baseURL now : String) (xc : labelCreate) (xu : labelUpdate)
    (c : Cookie) :
    (PostLabelCreate baseURL now xc (.ok c)).requests.map (fun r => r.body)
      = [some (renderJSONObject (labelCreateFields (defaultTimes now xc)))] ∧
    (PutLabelUpdate baseURL xu (.ok c)).requests.map (fun r => r.body)
      = [some (renderJSONObject (labelUpdateFields xu))] := by
  have hc : ∀ y : labelCreate,
      marshalLabelCreate y = renderJSONObject (labelCreateFields y) := by
    intro y
    apply String.ext
    simp [marshalLabelCreate, renderJSONObject, labelCreateFields,
      String.intercalate, String.intercalate.go, String.data_append]
  have hu : marshalLabelUpdate xu = renderJSONObject (labelUpdateFields xu) := by
    apply String.ext
    simp [marshalLabelUpdate, renderJSONObject, labelUpdateFields,
      String.intercalate, String.intercalate.go, String.data_append]
  exact ⟨by simp [PostLabelCreate, hc], by simp [PutLabelUpdate, hu]⟩

/-- C3: for every command, when the session-cookie load fails the command
dispatches no request and prints the error cause. -/
theorem claim_C3 (urlGen : String → String) (args : List String)
    (now err : String) (xl : labelsList) (xc : labelCreate) (xd : labelDel)
    (xg : labelGet) (xu : labelUpdate) :
    ((labelsList.Execute urlGen xl (.error err) args).1.requests = [] ∧
      ("Error: " ++ err) ∈ (labelsList.Execute urlGen xl (.error err) args).1.printed) ∧
    ((labelCreate.Execute urlGen now xc (.error err) args).1.requests = [] ∧
      ("Error: " ++ err) ∈ (labelCreate.Execute urlGen now xc (.error err) args).1.printed) ∧
    ((labelDel.Execute urlGen xd (.error err) args).1.requests = [] ∧
      ("Error: " ++ err) ∈ (labelDel.Execute urlGen xd (.error err) args).1.printed) ∧
    ((labelGet.Execute urlGen xg (.error err) args).1.requests = [] ∧
      ("Error: " ++ err) ∈ (labelGet.Execute urlGen xg (.error err) args).1.printed) ∧
    ((labelUpdate.Execute urlGen xu (.error err) args).1.requests = [] ∧
      ("Error: " ++ err) ∈ (labelUpdate.Execute urlGen xu (.error err) args).1.printed) := by
  refine ⟨⟨rfl, ?_⟩, ⟨rfl, ?_⟩, ⟨rfl, ?_⟩, ⟨rfl, ?_⟩, ⟨rfl, ?_⟩⟩ <;>
    simp [labelsList.Execute, labelCreate.Execute, labelDel.Execute,
      labelGet.Execute, labelUpdate.Execute, GetLabels, PostLabelCreate,
      DeleteLabel, GetLabel, PutLabelUpdate]

/-- C5: a missing required flag (scope on list; name or description on create
or update; id on get, delete or update) is rejected at parse time, before the
handler runs: whatever trace the handler would have produced, no request is
dispatched. -/
theorem claim_C5 (provided : List String) (run : CommandResult) :
    ("scope" ∉ provided →
      (parseAndRun labelsListRequiredFlags provided run).requests = []) ∧
    ("name" ∉ provided →
      (parseAndRun labelCreateRequiredFlags provided run).requests = [] ∧
      (parseAndRun labelUpdateRequiredFlags provided run).requests = []) ∧
    ("description" ∉ provided →
      (parseAndRun labelCreateRequiredFlags provided run).requests = [] ∧
      (parseAndRun labelUpdateRequiredFlags provided run).requests = []) ∧
    ("id" ∉ provided →
      (parseAndRun labelGetRequiredFlags provided run).requests = [] ∧
      (parseAndRun labelDelRequiredFlags provided run).requests = [] ∧
      (parseAndRun labelUpdateRequiredFlags provided run).requests = []) := by
  refine ⟨fun h => ?_, fun h => ⟨?_, ?_⟩, fun h => ⟨?_, ?_⟩, fun h => ⟨?_, ?_, ?_⟩⟩
  · rw [parseAndRun_missing "scope" (by simp [labelsListRequiredFlags]) h]
  · rw [parseAndRun_missing "name" (by simp [labelCreateRequiredFlags]) h]
  · rw [parseAndRun_missing "name" (by simp [labelUpdateRequiredFlags]) h]
  · rw [parseAndRun_missing "description" (by simp [labelCreateRequiredFlags]) h]
  · rw [parseAndRun_missing "description" (by simp [labelUpdateRequiredFlags]) h]
  · rw [parseAndRun_missing "id" (by simp [labelGetRequiredFlags]) h]
  · rw [parseAndRun_missing "id" (by simp [labelDelRequiredFlags]) h]
  · rw [parseAndRun_missing "id" (by simp [labelUpdateRequiredFlags]) h]

/-- Witness for C5 at the empty provided-flag list. -/
theorem claim_C5_witness :
    (parseAndRun labelsListRequiredFlags [] ⟨[], [⟨"GET", "u", [], none⟩]⟩).requests = [] ∧
    (parseAndRun labelCreateRequiredFlags [] ⟨[], [⟨"GET", "u", [], none⟩]⟩).requests = [] ∧
    (parseAndRun labelUpdateRequiredFlags [] ⟨[], [⟨"GET", "u", [], none⟩]⟩).requests = [] ∧
    (parseAndRun labelGetRequiredFlags [] ⟨[], [⟨"GET", "u", [], none⟩]⟩).requests = [] ∧
    (parseAndRun labelDelRequiredFlags [] ⟨[], [⟨"GET", "u", [], none⟩]⟩).requests = [] := by
  have h := claim_C5 [] ⟨[], [⟨"GET", "u", [], none⟩]⟩
  exact ⟨h.1 (by simp), (h.2.1 (by simp)).1, (h.2.1 (by simp)).2,
    (h.2.2.2 (by simp)).1, (h.2.2.2 (by simp)).2.1⟩

/-- C6 as stated is false: at this concrete invocation the value of the
Cookie header is `harbor-lang=zh-cn; beegosessionID=tok`, not the bare
`beegosessionID=tok` the claim promises as the header value. -/
theorem claim_C6_counterexample :
    (GetLabels "https://localhost/api/labels" ⟨"", "g", 0, 1, 10⟩
        (.ok ⟨"tok"⟩)).requests.map (fun r => r.headers)
      = [[("Cookie", "harbor-lang=zh-cn; beegosessionID=tok")]] ∧
    ("harbor-lang=zh-cn; beegosessionID=tok" : String) ≠ "beegosessionID=tok" := by
  constructor
  · decide
  · decide

/-- C6 amended: every dispatched request of every command carries its session
token in a Cookie header whose value is `harbor-lang=zh-cn; beegosessionID=`
followed by the loaded token — the `beegosessionID=<token>` pair is preceded
by a fixed `harbor-lang=zh-cn` cookie pair. -/
theorem claim_C6 (urlGen : String → String) (args : List String)
    (now token : String) (xl : labelsList) (xc : labelCreate) (xd : labelDel)
    (xg : labelGet) (xu : labelUpdate) :
    (labelsList.Execute urlGen xl (.ok ⟨token⟩) args).1.requests.map (fun r => r.headers)
      = [[("Cookie", "harbor-lang=zh-cn; beegosessionID=" ++ token)]] ∧
    (labelCreate.Execute urlGen now xc (.ok ⟨token⟩) args).1.requests.map (fun r => r.headers)
      = [[("Cookie", "harbor-lang=zh-cn; beegosessionID=" ++ token)]] ∧
    (labelDel.Execute urlGen xd (.ok ⟨token⟩) args).1.requests.map (fun r => r.headers)
      = [[("Cookie", "harbor-lang=zh-cn; beegosessionID=" ++ token)]] ∧
    (labelGet.Execute urlGen xg (.ok ⟨token⟩) args).1.requests.map (fun r => r.headers)
      = [[("Cookie", "harbor-lang=zh-cn; beegosessionID=" ++ token)]] ∧
    (labelUpdate.Execute urlGen xu (.ok ⟨token⟩) args).1.requests.map (fun r => r.headers)
      = [[("Cookie", "harbor-lang=zh-cn; beegosessionID=" ++ token),
          ("Content-Type", "application/json")]] := by
  refine ⟨?_, ?_, ?_, ?_, ?_⟩ <;>
    simp [labelsList.Execute, labelCreate.Execute, labelDel.Execute,
      labelGet.Execute, labelUpdate.Execute, GetLabels, PostLabelCreate,
      DeleteLabel, GetLabel, PutLabelUpdate, cookieHeaderValue]

/-- C7: every command invocation dispatches at most one HTTP request,
whatever the flags and whatever the cookie-load outcome; the response is not
even an input of any handler, so no failure can trigger a second request. -/
theorem claim_C7 (urlGen : String → String) (args : List String)
    (now : String) (cl : Except String Cookie) (xl : labelsList)
    (xc : labelCreate) (xd : labelDel) (xg : labelGet) (xu : labelUpdate) :
    (labelsList.Execute urlGen xl cl args).1.requests.length ≤ 1 ∧
    (labelCreate.Execute urlGen now xc cl args).1.requests.length ≤ 1 ∧
    (labelDel.Execute urlGen xd cl args).1.requests.length ≤ 1 ∧
    (labelGet.Execute urlGen xg cl args).1.requests.length ≤ 1 ∧
    (labelUpdate.Execute urlGen xu cl args).1.requests.length ≤ 1 := by
  cases cl <;>
    simp [labelsList.Execute, labelCreate.Execute, labelDel.Execute,
      labelGet.Execute, labelUpdate.Execute, GetLabels, PostLabelCreate,
      DeleteLabel, GetLabel, PutLabelUpdate]

/-- C8: the `Execute` method of every handler returns a nil Go error on every input —
also when the cookie load fails — so local failures are only printed, never
propagated to the CLI framework. -/
theorem claim_C8 (urlGen : String → String) (args : List String)
    (now : String) (cl : Except String Cookie) (xl : labelsList)
    (xc : labelCreate) (xd : labelDel) (xg : labelGet) (xu : labelUpdate) :
    (labelsList.Execute urlGen xl cl args).2 = none ∧
    (labelCreate.Execute urlGen now xc cl args).2 = none ∧
    (labelDel.Execute urlGen xd cl args).2 = none ∧
    (labelGet.Execute urlGen xg cl args).2 = none ∧
    (labelUpdate.Execute urlGen xu cl args).2 = none :=
  ⟨rfl, rfl, rfl, rfl, rfl⟩

/-- C9: in the create path, if either time field is empty then both are
overwritten with the same current-time string before serialization (a value
supplied for one is discarded when the other is empty); when both are
non-empty, the struct is left unchanged; the serialized body is that of the
struct after this step. -/
theorem claim_C9 (baseURL now : String) (x : labelCreate) (c : Cookie) :
    ((x.CreationTime = "" ∨ x.UpdateTime = "") →
      defaultTimes now x = { x with CreationTime := now, UpdateTime := now }) ∧
    ((x.CreationTime ≠ "" ∧ x.UpdateTime ≠ "") → defaultTimes now x = x) ∧
    (PostLabelCreate baseURL now x (.ok c)).requests.map (fun r => r.body)
      = [some (marshalLabelCreate (defaultTimes now x))] := by
  refine ⟨fun h => ?_, fun h => ?_, by simp [PostLabelCreate]⟩
  · unfold defaultTimes
    rw [if_pos]
    rcases h with h | h <;> simp [h]
  · unfold defaultTimes
    rw [if_neg]
    simp [h.1, h.2]

/-- Witness for C9: an empty creation time forces both fields to `now`,
discarding the supplied update time `T0`. -/
theorem claim_C9_witness :
    defaultTimes "T1" ⟨0, "n", "d", "#000000", "g", 0, "", "T0", false⟩
      = ⟨0, "n", "d", "#000000", "g", 0, "T1", "T1", false⟩ ∧
    defaultTimes "T1" ⟨0, "n", "d", "#000000", "g", 0, "Ta", "Tb", false⟩
      = ⟨0, "n", "d", "#000000", "g", 0, "Ta", "Tb", false⟩ := by
  constructor
  · exact (claim_C9 "b" "T1" ⟨0, "n", "d", "#000000", "g", 0, "", "T0", false⟩
      ⟨"t"⟩).1 (Or.inl rfl)
  · exact (claim_C9 "b" "T1" ⟨0, "n", "d", "#000000", "g", 0, "Ta", "Tb", false⟩
      ⟨"t"⟩).2.1 (by simp)

end Harbor
